import Mathlib

/-!
Shallow embedding of the abuse-mitigation subsystem of `src/server/index.js`:
the IP ban store (`ipBans`), the violation tracker (`ipViolations` together
with `recordViolation`), the ban-check middleware, the tiered rate limiters
(`globalBurstLimiter`, `globalSustainedLimiter`, `apiLimiter`) and the custom
`rateLimitHandler`.

Modelling conventions:
* timestamps are naturals, milliseconds since epoch as produced by `Date.now()`;
* a JS `Map` is modelled as a function from keys to `Option` values
  (`Map.get` returning `undefined` is `none`); `Map.set`/`Map.delete` are the
  `setMap` update below;
* each request is processed sequentially through the middleware chain in its
  registration order (ban check first, then the limiters), exactly as Express
  invokes the handlers of `app.use`; a middleware that sends a response and
  does not call `next()` terminates the chain;
* the internals of the `express-rate-limit` fixed-window counters are not part
  of the repository; `checkAndConsume` below models them from the spec (§4.3),
  with the tier configurations taken verbatim from `src/server/index.js`.
-/

/-- Millisecond length of the sliding violation window, `5 * 60 * 1000`
(src/server/index.js line 79). -/
def VIOLATION_WINDOW : Nat := 5 * 60 * 1000

/-- Millisecond length of a ban, `const banDuration = 15 * 60 * 1000`
(src/server/index.js line 85). -/
def BAN_DURATION : Nat := 15 * 60 * 1000

/-- One entry of the `ipBans` map: `{ bannedUntil: timestamp, violations: count }`
(src/server/index.js line 56). -/
structure BanRecord where
  bannedUntil : Nat
  violations : Nat
deriving DecidableEq

/-- The two JS `Map`s backing the ban system (src/server/index.js lines 56-57):
`ipBans : Map ip -> BanRecord` and `ipViolations : Map ip -> [timestamps]`. -/
structure BanState where
  ipBans : String → Option BanRecord
  ipViolations : String → Option (List Nat)

/-- Point update of a map, modelling JS `Map.set` (with `v = some _`) and
`Map.delete` (with `v = none`). -/
def setMap {α : Type} (m : String → Option α) (k : String) (v : Option α) :
    String → Option α :=
  fun q => if q = k then v else m q

/-- Translation of `isBanned` (src/server/index.js lines 60-71).  Returns the
boolean the JS function returns together with the (possibly pruned) state,
since the JS function deletes an expired record as a side effect:
`if (Date.now() > ban.bannedUntil) { ipBans.delete(ip); return false; }`. -/
def isBanned (s : BanState) (ip : String) (now : Nat) : Bool × BanState :=
  match s.ipBans ip with
  | none => (false, s)
  | some ban =>
    if ban.bannedUntil < now then
      (false, { s with ipBans := setMap s.ipBans ip none })
    else
      (true, s)

/-- Translation of `recordViolation` (src/server/index.js lines 74-98):
filter the stored log to entries with `now - time < 5 * 60 * 1000`, push `now`,
store the result; if the result has length `>= 5`, overwrite the ban record
with `{ bannedUntil: now + banDuration, violations: existing.violations + 1 }`
(the existing record defaulting to `{ violations: 0 }`) and delete the log.
The JS default object has no `bannedUntil` field; it is never read, and the
model gives it `0`. -/
def recordViolation (s : BanState) (ip : String) (now : Nat) : BanState :=
  let violations := (s.ipViolations ip).getD []
  let recentViolations :=
    (violations.filter (fun time => decide (now - time < VIOLATION_WINDOW))) ++ [now]
  let s1 : BanState := { s with ipViolations := setMap s.ipViolations ip (some recentViolations) }
  if 5 ≤ recentViolations.length then
    let existingBan := (s1.ipBans ip).getD { bannedUntil := 0, violations := 0 }
    { s1 with
      ipBans := setMap s1.ipBans ip
        (some { bannedUntil := now + BAN_DURATION,
                violations := existingBan.violations + 1 }),
      ipViolations := setMap s1.ipViolations ip none }
  else
    s1

/-- Configuration of one `rateLimit({ windowMs, max, ... })` call. -/
structure TierConfig where
  windowMs : Nat
  max : Nat
deriving DecidableEq

/-- `globalBurstLimiter` (src/server/index.js lines 195-202): 1 s window, 50. -/
def burstTier : TierConfig := { windowMs := 1000, max := 50 }

/-- `globalSustainedLimiter` (src/server/index.js lines 205-212): 60 s, 100. -/
def sustainedTier : TierConfig := { windowMs := 60 * 1000, max := 100 }

/-- `apiLimiter` (src/server/index.js lines 178-184): 15 min window, 200. -/
def apiTier : TierConfig := { windowMs := 15 * 60 * 1000, max := 200 }

/-- Fixed-window state per (identity, tier): `{ count, windowStart }`. -/
structure LimiterWindow where
  count : Nat
  windowStart : Nat
deriving DecidableEq

/-- Result of one limiter check: the admission decision, the end of the
current window (`resetAt = windowStart + windowMs`), and the window to store. -/
structure TierResult where
  allowed : Bool
  resetAt : Nat
  window : LimiterWindow
deriving DecidableEq

/-- Modelled from the spec: the fixed-window counter of `express-rate-limit`
is library code, not part of this repository; spec §4.3 gives its contract.
If no window exists or the window has expired (`now - windowStart >= windowMs`)
a fresh window starts with `count = 1`; otherwise the request is allowed while
`count < max`, consuming one slot, and rejected once `count` has reached `max`,
with `resetAt = windowStart + windowMs`. -/
def checkAndConsume (cfg : TierConfig) (w : Option LimiterWindow) (now : Nat) :
    TierResult :=
  match w with
  | none =>
    { allowed := true, resetAt := now + cfg.windowMs,
      window := { count := 1, windowStart := now } }
  | some win =>
    if cfg.windowMs ≤ now - win.windowStart then
      { allowed := true, resetAt := now + cfg.windowMs,
        window := { count := 1, windowStart := now } }
    else if win.count < cfg.max then
      { allowed := true, resetAt := win.windowStart + cfg.windowMs,
        window := { count := win.count + 1, windowStart := win.windowStart } }
    else
      { allowed := false, resetAt := win.windowStart + cfg.windowMs, window := win }

/-- The admission verdict of spec §4.4: which tier rejected and its `resetAt`
are carried on the rate-limited verdict. -/
inductive Tier where
  | burst
  | sustained
  | api
deriving DecidableEq

/-- Tri-state admission outcome per request. -/
inductive Verdict where
  | allowed
  | rateLimited (tier : Tier) (resetAt : Nat)
  | banned
deriving DecidableEq

/-- The whole in-memory state of the admission-control core: the ban system
plus one window map per tier.  The `authLimiter` of src/server/index.js line
187 is mounted only on `/api/auth` and no claim concerns it, so it is not
modelled; it sits after the three tiers below in the chain and does not affect
them. -/
structure SysState where
  bans : BanState
  burstWindows : String → Option LimiterWindow
  sustainedWindows : String → Option LimiterWindow
  apiWindows : String → Option LimiterWindow

/-- Response shapes produced by the rejection paths of src/server/index.js:
`forbiddenStatic` is `res.status(403).sendFile('403.html')` from the ban-check
middleware (line 110); `tooManyJson retryAfter resetTime` is the
`res.status(429).json({ error, retryAfter, resetTime })` of `rateLimitHandler`
(lines 166-170); `redirectRateLimit reset` is
`res.redirect('/429.html?reset=' + resetTime)` (line 174); `proceed` means
every middleware called `next()` and the request reaches its route. -/
inductive Response where
  | forbiddenStatic
  | tooManyJson (retryAfter : Int) (resetTime : Int)
  | redirectRateLimit (reset : Int)
  | proceed
deriving DecidableEq

/-- Middleware stage for `apiLimiter`, mounted at `'/api/'`
(src/server/index.js line 219): it runs only for programmatic routes.
On rejection the state also records a violation, as `rateLimitHandler`
calls `recordViolation(ip)` (line 159). -/
def apiStage (s : SysState) (ip : String) (isApi : Bool) (now : Nat) :
    SysState × Verdict :=
  if isApi then
    let r := checkAndConsume apiTier (s.apiWindows ip) now
    let s' : SysState := { s with apiWindows := setMap s.apiWindows ip (some r.window) }
    if r.allowed then (s', Verdict.allowed)
    else ({ s' with bans := recordViolation s'.bans ip now },
          Verdict.rateLimited Tier.api r.resetAt)
  else (s, Verdict.allowed)

/-- Middleware stage for `globalSustainedLimiter` (src/server/index.js line
216); on rejection the chain stops, otherwise `apiStage` runs next. -/
def sustainedStage (s : SysState) (ip : String) (isApi : Bool) (now : Nat) :
    SysState × Verdict :=
  let r := checkAndConsume sustainedTier (s.sustainedWindows ip) now
  let s' : SysState := { s with sustainedWindows := setMap s.sustainedWindows ip (some r.window) }
  if r.allowed then apiStage s' ip isApi now
  else ({ s' with bans := recordViolation s'.bans ip now },
        Verdict.rateLimited Tier.sustained r.resetAt)

/-- Middleware stage for `globalBurstLimiter` (src/server/index.js line 215),
the first limiter in the chain. -/
def burstStage (s : SysState) (ip : String) (isApi : Bool) (now : Nat) :
    SysState × Verdict :=
  let r := checkAndConsume burstTier (s.burstWindows ip) now
  let s' : SysState := { s with burstWindows := setMap s.burstWindows ip (some r.window) }
  if r.allowed then sustainedStage s' ip isApi now
  else ({ s' with bans := recordViolation s'.bans ip now },
        Verdict.rateLimited Tier.burst r.resetAt)

/-- The full admission pipeline for one request: the ban-check middleware of
src/server/index.js lines 101-114 runs first (it is registered before the
limiters) and short-circuits with a `Banned` verdict; otherwise the limiter
chain runs in registration order. -/
def runPipeline (s : SysState) (ip : String) (isApi : Bool) (now : Nat) :
    SysState × Verdict :=
  let br := isBanned s.bans ip now
  let s' : SysState := { s with bans := br.2 }
  if br.1 then (s', Verdict.banned) else burstStage s' ip isApi now

/-- Verdict dispatcher: the response each verdict produces, from the ban-check
middleware (403 static file) and from `rateLimitHandler` (lines 153-175):
`waitSeconds = Math.floor((resetTime - Date.now()) / 1000)` and
`resetTime = Math.floor(Date.now() / 1000) + Math.floor((resetTime - Date.now()) / 1000)`,
with the JSON payload on `/api/` routes and the redirect otherwise.
`Int.fdiv` is floor division, matching `Math.floor` on a real quotient. -/
def dispatch (v : Verdict) (isApi : Bool) (now : Nat) : Response :=
  match v with
  | Verdict.banned => Response.forbiddenStatic
  | Verdict.allowed => Response.proceed
  | Verdict.rateLimited _ resetAt =>
    let waitSeconds : Int := ((resetAt : Int) - (now : Int)).fdiv 1000
    let resetTime : Int := ((now : Int)).fdiv 1000 + ((resetAt : Int) - (now : Int)).fdiv 1000
    if isApi then Response.tooManyJson waitSeconds resetTime
    else Response.redirectRateLimit resetTime

/-- One request end to end: pipeline plus dispatcher. -/
def processRequest (s : SysState) (ip : String) (isApi : Bool) (now : Nat) :
    SysState × Response :=
  let r := runPipeline s ip isApi now
  (r.1, dispatch r.2 isApi now)

/-- Ban state with empty maps, the state at server start. -/
def emptyBan : BanState :=
  { ipBans := fun _ => none, ipViolations := fun _ => none }

/-- System state with empty maps, the state at server start. -/
def emptySys : SysState :=
  { bans := emptyBan,
    burstWindows := fun _ => none,
    sustainedWindows := fun _ => none,
    apiWindows := fun _ => none }

/-- Ban state holding one record for identity "a", a concrete input. -/
def c3State : BanState :=
  { ipBans := fun q => if q = "a" then some { bannedUntil := 10, violations := 1 } else none,
    ipViolations := fun _ => none }

/-- System state in which identity "a" has a full burst window starting at 0. -/
def c7State : SysState :=
  { bans := emptyBan,
    burstWindows := fun q => if q = "a" then some { count := 50, windowStart := 0 } else none,
    sustainedWindows := fun _ => none,
    apiWindows := fun _ => none }

/-- System state in which identity "a" is actively banned until t = 1000 and
also has a full burst window, showing the ban verdict overrides the limiter. -/
def c2State : SysState :=
  { bans := { ipBans := fun q => if q = "a" then some { bannedUntil := 1000, violations := 1 } else none,
              ipViolations := fun _ => none },
    burstWindows := fun q => if q = "a" then some { count := 50, windowStart := 400 } else none,
    sustainedWindows := fun _ => none,
    apiWindows := fun _ => none }

/-- System state in which identity "a" is not banned but its burst window is
full (count 50 in the window starting at 0). -/
def c6State : SysState :=
  { bans := emptyBan,
    burstWindows := fun q => if q = "a" then some { count := 50, windowStart := 0 } else none,
    sustainedWindows := fun _ => none,
    apiWindows := fun _ => none }

/-- System state for the C1 run: identity "a" carries an expired first ban
(violations = 1, expired at t = 900000) and a full burst window, so every
subsequent request is rate-limited. -/
def c1State : SysState :=
  { bans := { ipBans := fun q => if q = "a" then some { bannedUntil := 900000, violations := 1 } else none,
              ipViolations := fun _ => none },
    burstWindows := fun q => if q = "a" then some { count := 50, windowStart := 900001 } else none,
    sustainedWindows := fun _ => none,
    apiWindows := fun _ => none }

/-- State after five consecutive requests from "a" at t = 900001, each
rejected by the full burst window and hence recorded as a violation; the
fifth one triggers the second ban. -/
def c1After : SysState :=
  (runPipeline (runPipeline (runPipeline (runPipeline (runPipeline c1State
    "a" false 900001).1 "a" false 900001).1 "a" false 900001).1 "a" false 900001).1
    "a" false 900001).1

-- ------------------------------------------------------------------
-- Helper lemmas
-- ------------------------------------------------------------------

theorem setMap_eq {α : Type} (m : String → Option α) (k : String) (v : Option α) :
    setMap m k v k = v := by
  simp [setMap]

theorem setMap_ne {α : Type} (m : String → Option α) (k q : String) (v : Option α)
    (h : q ≠ k) : setMap m k v q = m q := by
  simp [setMap, h]

theorem recordViolation_below (s : BanState) (ip : String) (now : Nat)
    (h : (((s.ipViolations ip).getD []).filter
        (fun time => decide (now - time < VIOLATION_WINDOW))).length + 1 < 5) :
    (recordViolation s ip now).ipBans = s.ipBans ∧
    (recordViolation s ip now).ipViolations ip =
      some (((s.ipViolations ip).getD []).filter
        (fun time => decide (now - time < VIOLATION_WINDOW)) ++ [now]) ∧
    (∀ q, q ≠ ip → (recordViolation s ip now).ipViolations q = s.ipViolations q) := by
  have hc : ¬ 5 ≤ ((((s.ipViolations ip).getD []).filter
      (fun time => decide (now - time < VIOLATION_WINDOW))) ++ [now]).length := by
    rw [List.length_append]
    simp only [List.length_singleton]
    omega
  refine ⟨?_, ?_, ?_⟩
  · simp only [recordViolation, if_neg hc]
  · simp only [recordViolation, if_neg hc]
    exact setMap_eq _ _ _
  · intro q hq
    simp only [recordViolation, if_neg hc]
    exact setMap_ne _ _ _ _ hq

theorem recordViolation_reach (s : BanState) (ip : String) (now : Nat)
    (h : 5 ≤ (((s.ipViolations ip).getD []).filter
        (fun time => decide (now - time < VIOLATION_WINDOW))).length + 1) :
    (recordViolation s ip now).ipBans ip =
      some { bannedUntil := now + BAN_DURATION,
             violations :=
               ((s.ipBans ip).getD { bannedUntil := 0, violations := 0 }).violations + 1 } ∧
    (recordViolation s ip now).ipViolations ip = none := by
  have hc : 5 ≤ ((((s.ipViolations ip).getD []).filter
      (fun time => decide (now - time < VIOLATION_WINDOW))) ++ [now]).length := by
    rw [List.length_append]
    simp only [List.length_singleton]
    omega
  simp only [recordViolation, if_pos hc]
  exact ⟨setMap_eq _ _ _, setMap_eq _ _ _⟩

theorem filter_window_append (l : List Nat) (now : Nat) :
    (l ++ [now]).filter (fun time => decide (now - time < VIOLATION_WINDOW)) =
      l.filter (fun time => decide (now - time < VIOLATION_WINDOW)) ++ [now] := by
  have h0 : decide (0 < VIOLATION_WINDOW) = true := by decide
  rw [List.filter_append]
  simp [List.filter, Nat.sub_self, h0]

-- ------------------------------------------------------------------
-- Claim theorems
-- ------------------------------------------------------------------

/-- C3: `isBanned` returns false when no record exists for the identity; when
a record exists and the current time is strictly past its `bannedUntil` it
deletes that record (touching no other key and not the violation logs) and
returns false; otherwise it returns true and changes nothing. -/
theorem C3_isBanned_contract (s : BanState) (ip : String) (now : Nat) :
    (s.ipBans ip = none → isBanned s ip now = (false, s)) ∧
    (∀ ban, s.ipBans ip = some ban → ban.bannedUntil < now →
      (isBanned s ip now).1 = false ∧
      (isBanned s ip now).2.ipBans ip = none ∧
      (∀ q, q ≠ ip → (isBanned s ip now).2.ipBans q = s.ipBans q) ∧
      (isBanned s ip now).2.ipViolations = s.ipViolations) ∧
    (∀ ban, s.ipBans ip = some ban → now ≤ ban.bannedUntil →
      isBanned s ip now = (true, s)) := by
  refine ⟨fun h => by simp [isBanned, h], fun ban hb hlt => ?_, fun ban hb hle => ?_⟩
  · refine ⟨?_, ?_, ?_, ?_⟩
    · simp [isBanned, hb, hlt]
    · simp only [isBanned, hb, if_pos hlt]
      exact setMap_eq _ _ _
    · intro q hq
      simp only [isBanned, hb, if_pos hlt]
      exact setMap_ne _ _ _ _ hq
    · simp [isBanned, hb, hlt]
  · simp only [isBanned, hb]
    rw [if_neg (by omega)]

theorem C3_isBanned_contract_witness :
    isBanned c3State "a" 5 = (true, c3State) ∧
    (isBanned c3State "a" 11).2.ipBans "a" = none ∧
    (isBanned c3State "b" 5).1 = false := by
  refine ⟨?_, ?_, ?_⟩
  · exact (C3_isBanned_contract c3State "a" 5).2.2
      { bannedUntil := 10, violations := 1 } (by decide) (by decide)
  · exact ((C3_isBanned_contract c3State "a" 11).2.1
      { bannedUntil := 10, violations := 1 } (by decide) (by decide)).2.1
  · have h := (C3_isBanned_contract c3State "b" 5).1 (by decide)
    rw [h]

/-- C10: `isBanned` is idempotent in spite of its lazy-delete side effect:
repeating the call at the same instant returns the same boolean and leaves
the ban state exactly as the first call left it. -/
theorem C10_isBanned_idempotent (s : BanState) (ip : String) (now : Nat) :
    isBanned (isBanned s ip now).2 ip now = isBanned s ip now := by
  rcases h : s.ipBans ip with _ | ban
  · simp [isBanned, h]
  · by_cases hlt : ban.bannedUntil < now
    · simp [isBanned, h, hlt, setMap_eq]
    · simp [isBanned, h, hlt]

/-- C4: `recordViolation` appends the current timestamp to the identity's log
and keeps exactly the entries of the trailing 5-minute window; precisely when
the resulting log has length at least 5 it installs a ban expiring at
`now + BAN_DURATION` and deletes the log entirely, and otherwise it stores the
log and leaves the ban map untouched. -/
theorem C4_recordViolation_contract (s : BanState) (ip : String) (now : Nat) :
    (5 ≤ ((((s.ipViolations ip).getD []) ++ [now]).filter
        (fun time => decide (now - time < VIOLATION_WINDOW))).length →
      (∃ v, (recordViolation s ip now).ipBans ip =
        some { bannedUntil := now + BAN_DURATION, violations := v }) ∧
      (recordViolation s ip now).ipViolations ip = none) ∧
    (((((s.ipViolations ip).getD []) ++ [now]).filter
        (fun time => decide (now - time < VIOLATION_WINDOW))).length < 5 →
      (recordViolation s ip now).ipViolations ip =
        some ((((s.ipViolations ip).getD []) ++ [now]).filter
          (fun time => decide (now - time < VIOLATION_WINDOW))) ∧
      (recordViolation s ip now).ipBans = s.ipBans) := by
  rw [filter_window_append]
  constructor
  · intro h
    have h' : 5 ≤ (((s.ipViolations ip).getD []).filter
        (fun time => decide (now - time < VIOLATION_WINDOW))).length + 1 := by
      rw [List.length_append] at h
      simpa using h
    exact ⟨⟨_, (recordViolation_reach s ip now h').1⟩, (recordViolation_reach s ip now h').2⟩
  · intro h
    have h' : (((s.ipViolations ip).getD []).filter
        (fun time => decide (now - time < VIOLATION_WINDOW))).length + 1 < 5 := by
      rw [List.length_append] at h
      simpa using h
    exact ⟨(recordViolation_below s ip now h').2.1, (recordViolation_below s ip now h').1⟩

theorem C4_recordViolation_contract_witness :
    (recordViolation emptyBan "a" 7).ipViolations "a" = some [7] ∧
    (recordViolation emptyBan "a" 7).ipBans = emptyBan.ipBans := by
  have h := (C4_recordViolation_contract emptyBan "a" 7).2 (by decide)
  simpa [emptyBan, VIOLATION_WINDOW] using h

/-- C9: after every `recordViolation` call the stored violation log for the
identity either is absent (the ban threshold was reached and the log deleted)
or holds between 1 and 4 entries; a log of 5 or more entries is never left
behind. -/
theorem C9_log_length_invariant (s : BanState) (ip : String) (now : Nat) :
    (recordViolation s ip now).ipViolations ip = none ∨
    ∃ l, (recordViolation s ip now).ipViolations ip = some l ∧
      1 ≤ l.length ∧ l.length ≤ 4 := by
  by_cases h : 5 ≤ (((s.ipViolations ip).getD []).filter
      (fun time => decide (now - time < VIOLATION_WINDOW))).length + 1
  · exact Or.inl (recordViolation_reach s ip now h).2
  · refine Or.inr ⟨_, (recordViolation_below s ip now (by omega)).2.1, ?_, ?_⟩ <;>
      simp only [List.length_append, List.length_singleton] <;> omega

/-- C5: five violations recorded within one 5-minute window produce exactly
one ban, on the fifth call (no ban exists after the first four calls, and the
fifth installs a ban expiring `t5 + BAN_DURATION` and clears the log); four
violations followed by the window fully elapsing produce no ban, and a
subsequent violation restarts the log at a single entry. -/
theorem C5_threshold_scenario (s : BanState) (ip : String) (t1 t2 t3 t4 t5 u : Nat)
    (hv : s.ipViolations ip = none) (hb : s.ipBans ip = none)
    (h12 : t1 ≤ t2) (h23 : t2 ≤ t3) (h34 : t3 ≤ t4) (h45 : t4 ≤ t5)
    (hw : t5 - t1 < VIOLATION_WINDOW) (hu : t4 + VIOLATION_WINDOW ≤ u) :
    (recordViolation s ip t1).ipBans ip = none ∧
    (recordViolation (recordViolation s ip t1) ip t2).ipBans ip = none ∧
    (recordViolation (recordViolation (recordViolation s ip t1) ip t2) ip t3).ipBans ip
      = none ∧
    (recordViolation (recordViolation (recordViolation (recordViolation s ip t1) ip t2)
      ip t3) ip t4).ipBans ip = none ∧
    (∃ v, (recordViolation (recordViolation (recordViolation (recordViolation
        (recordViolation s ip t1) ip t2) ip t3) ip t4) ip t5).ipBans ip =
      some { bannedUntil := t5 + BAN_DURATION, violations := v }) ∧
    (recordViolation (recordViolation (recordViolation (recordViolation
      (recordViolation s ip t1) ip t2) ip t3) ip t4) ip t5).ipViolations ip = none ∧
    (recordViolation (recordViolation (recordViolation (recordViolation
      (recordViolation s ip t1) ip t2) ip t3) ip t4) ip u).ipBans ip = none ∧
    (recordViolation (recordViolation (recordViolation (recordViolation
      (recordViolation s ip t1) ip t2) ip t3) ip t4) ip u).ipViolations ip
      = some [u] := by
  have d21 : decide (t2 - t1 < VIOLATION_WINDOW) = true := decide_eq_true (by omega)
  have d31 : decide (t3 - t1 < VIOLATION_WINDOW) = true := decide_eq_true (by omega)
  have d32 : decide (t3 - t2 < VIOLATION_WINDOW) = true := decide_eq_true (by omega)
  have d41 : decide (t4 - t1 < VIOLATION_WINDOW) = true := decide_eq_true (by omega)
  have d42 : decide (t4 - t2 < VIOLATION_WINDOW) = true := decide_eq_true (by omega)
  have d43 : decide (t4 - t3 < VIOLATION_WINDOW) = true := decide_eq_true (by omega)
  have d51 : decide (t5 - t1 < VIOLATION_WINDOW) = true := decide_eq_true (by omega)
  have d52 : decide (t5 - t2 < VIOLATION_WINDOW) = true := decide_eq_true (by omega)
  have d53 : decide (t5 - t3 < VIOLATION_WINDOW) = true := decide_eq_true (by omega)
  have d54 : decide (t5 - t4 < VIOLATION_WINDOW) = true := decide_eq_true (by omega)
  have e1 : decide (u - t1 < VIOLATION_WINDOW) = false := decide_eq_false (by omega)
  have e2 : decide (u - t2 < VIOLATION_WINDOW) = false := decide_eq_false (by omega)
  have e3 : decide (u - t3 < VIOLATION_WINDOW) = false := decide_eq_false (by omega)
  have e4 : decide (u - t4 < VIOLATION_WINDOW) = false := decide_eq_false (by omega)
  obtain ⟨B1, L1, -⟩ := recordViolation_below s ip t1
    (by rw [hv]; simp only [Option.getD_none, List.filter_nil, List.length_nil]; omega)
  rw [hv] at L1
  simp only [Option.getD_none, List.filter_nil, List.nil_append] at L1
  obtain ⟨B2, L2, -⟩ := recordViolation_below (recordViolation s ip t1) ip t2
    (by rw [L1]; simp [List.filter_cons, d21])
  rw [L1] at L2
  simp only [Option.getD_some, List.filter_cons, d21, if_true, List.filter_nil,
    List.singleton_append, List.cons_append, List.nil_append] at L2
  obtain ⟨B3, L3, -⟩ := recordViolation_below
    (recordViolation (recordViolation s ip t1) ip t2) ip t3
    (by rw [L2]; simp [List.filter_cons, d31, d32])
  rw [L2] at L3
  simp only [Option.getD_some, List.filter_cons, d31, d32, if_true, List.filter_nil,
    List.singleton_append, List.cons_append, List.nil_append] at L3
  obtain ⟨B4, L4, -⟩ := recordViolation_below
    (recordViolation (recordViolation (recordViolation s ip t1) ip t2) ip t3) ip t4
    (by rw [L3]; simp [List.filter_cons, d41, d42, d43])
  rw [L3] at L4
  simp only [Option.getD_some, List.filter_cons, d41, d42, d43, if_true, List.filter_nil,
    List.singleton_append, List.cons_append, List.nil_append] at L4
  have A1 : (recordViolation s ip t1).ipBans ip = none := by rw [B1, hb]
  have A2 : (recordViolation (recordViolation s ip t1) ip t2).ipBans ip = none := by
    rw [B2, B1, hb]
  have A3 : (recordViolation (recordViolation (recordViolation s ip t1) ip t2)
      ip t3).ipBans ip = none := by rw [B3, B2, B1, hb]
  have A4 : (recordViolation (recordViolation (recordViolation (recordViolation s ip t1)
      ip t2) ip t3) ip t4).ipBans ip = none := by rw [B4, B3, B2, B1, hb]
  obtain ⟨B5, L5⟩ := recordViolation_reach
    (recordViolation (recordViolation (recordViolation (recordViolation s ip t1) ip t2)
      ip t3) ip t4) ip t5
    (by rw [L4]; simp [List.filter_cons, d51, d52, d53, d54])
  obtain ⟨B6, L6, -⟩ := recordViolation_below
    (recordViolation (recordViolation (recordViolation (recordViolation s ip t1) ip t2)
      ip t3) ip t4) ip u
    (by rw [L4]; simp [List.filter_cons, e1, e2, e3, e4])
  rw [L4] at L6
  simp only [Option.getD_some, List.filter_cons, e1, e2, e3, e4, if_false,
    Bool.false_eq_true, List.filter_nil, List.nil_append] at L6
  refine ⟨A1, A2, A3, A4, ⟨_, B5⟩, L5, ?_, L6⟩
  rw [B6, A4]

theorem C5_threshold_scenario_witness :
    (recordViolation (recordViolation (recordViolation (recordViolation emptyBan "a" 0)
      "a" 0) "a" 0) "a" 0).ipBans "a" = none ∧
    (recordViolation (recordViolation (recordViolation (recordViolation
      (recordViolation emptyBan "a" 0) "a" 0) "a" 0) "a" 0) "a" 0).ipViolations "a"
      = none ∧
    (recordViolation (recordViolation (recordViolation (recordViolation
      (recordViolation emptyBan "a" 0) "a" 0) "a" 0) "a" 0) "a" 300000).ipViolations "a"
      = some [300000] := by
  have h := C5_threshold_scenario emptyBan "a" 0 0 0 0 0 300000 rfl rfl
    (Nat.le_refl 0) (Nat.le_refl 0) (Nat.le_refl 0) (Nat.le_refl 0)
    (by decide) (by decide)
  exact ⟨h.2.2.2.1, h.2.2.2.2.2.1, h.2.2.2.2.2.2.2⟩

theorem runPipeline_no_ban (s : SysState) (ip : String) (isApi : Bool) (now : Nat)
    (hb : s.bans.ipBans ip = none) :
    runPipeline s ip isApi now = burstStage s ip isApi now := by
  simp [runPipeline, isBanned, hb]

theorem burstStage_reject (s : SysState) (ip : String) (isApi : Bool) (now : Nat)
    (h : (checkAndConsume burstTier (s.burstWindows ip) now).allowed = false) :
    burstStage s ip isApi now =
      ({ s with
          burstWindows := setMap s.burstWindows ip
            (some (checkAndConsume burstTier (s.burstWindows ip) now).window),
          bans := recordViolation s.bans ip now },
       Verdict.rateLimited Tier.burst
         (checkAndConsume burstTier (s.burstWindows ip) now).resetAt) := by
  simp [burstStage, h]

theorem burstStage_allow (s : SysState) (ip : String) (isApi : Bool) (now : Nat)
    (h : (checkAndConsume burstTier (s.burstWindows ip) now).allowed = true) :
    burstStage s ip isApi now =
      sustainedStage
        { s with burstWindows := (setMap s.burstWindows ip
            (some (checkAndConsume burstTier (s.burstWindows ip) now).window)) }
        ip isApi now := by
  simp [burstStage, h]

theorem sustainedStage_reject (s : SysState) (ip : String) (isApi : Bool) (now : Nat)
    (h : (checkAndConsume sustainedTier (s.sustainedWindows ip) now).allowed = false) :
    sustainedStage s ip isApi now =
      ({ s with
          sustainedWindows := setMap s.sustainedWindows ip
            (some (checkAndConsume sustainedTier (s.sustainedWindows ip) now).window),
          bans := recordViolation s.bans ip now },
       Verdict.rateLimited Tier.sustained
         (checkAndConsume sustainedTier (s.sustainedWindows ip) now).resetAt) := by
  simp [sustainedStage, h]

theorem sustainedStage_allow (s : SysState) (ip : String) (isApi : Bool) (now : Nat)
    (h : (checkAndConsume sustainedTier (s.sustainedWindows ip) now).allowed = true) :
    sustainedStage s ip isApi now =
      apiStage
        { s with sustainedWindows := (setMap s.sustainedWindows ip
            (some (checkAndConsume sustainedTier (s.sustainedWindows ip) now).window)) }
        ip isApi now := by
  simp [sustainedStage, h]

theorem checkAndConsume_reject_future (cfg : TierConfig) (w : Option LimiterWindow)
    (now : Nat) (h : (checkAndConsume cfg w now).allowed = false) :
    now < (checkAndConsume cfg w now).resetAt := by
  cases w with
  | none => simp [checkAndConsume] at h
  | some win =>
    by_cases h1 : cfg.windowMs ≤ now - win.windowStart
    · simp [checkAndConsume, h1] at h
    · by_cases h2 : win.count < cfg.max
      · simp [checkAndConsume, h1, h2] at h
      · simp only [checkAndConsume, if_neg h1, if_neg h2]
        omega

theorem apiStage_rateLimited_future (s : SysState) (ip : String) (isApi : Bool)
    (now : Nat) (t : Tier) (resetAt : Nat)
    (h : (apiStage s ip isApi now).2 = Verdict.rateLimited t resetAt) :
    now < resetAt := by
  by_cases hApi : isApi
  · cases ha : (checkAndConsume apiTier (s.apiWindows ip) now).allowed with
    | false =>
      have hf := checkAndConsume_reject_future apiTier (s.apiWindows ip) now ha
      simp only [apiStage, hApi, if_true, ha, Bool.false_eq_true, if_false,
        Verdict.rateLimited.injEq] at h
      exact h.2 ▸ hf
    | true => simp [apiStage, hApi, ha] at h
  · simp [apiStage, hApi] at h

theorem sustainedStage_rateLimited_future (s : SysState) (ip : String) (isApi : Bool)
    (now : Nat) (t : Tier) (resetAt : Nat)
    (h : (sustainedStage s ip isApi now).2 = Verdict.rateLimited t resetAt) :
    now < resetAt := by
  cases ha : (checkAndConsume sustainedTier (s.sustainedWindows ip) now).allowed with
  | false =>
    have hf := checkAndConsume_reject_future sustainedTier (s.sustainedWindows ip) now ha
    rw [sustainedStage_reject s ip isApi now ha] at h
    simp only [Verdict.rateLimited.injEq] at h
    exact h.2 ▸ hf
  | true =>
    rw [sustainedStage_allow s ip isApi now ha] at h
    exact apiStage_rateLimited_future _ ip isApi now t resetAt h

theorem burstStage_rateLimited_future (s : SysState) (ip : String) (isApi : Bool)
    (now : Nat) (t : Tier) (resetAt : Nat)
    (h : (burstStage s ip isApi now).2 = Verdict.rateLimited t resetAt) :
    now < resetAt := by
  cases ha : (checkAndConsume burstTier (s.burstWindows ip) now).allowed with
  | false =>
    have hf := checkAndConsume_reject_future burstTier (s.burstWindows ip) now ha
    rw [burstStage_reject s ip isApi now ha] at h
    simp only [Verdict.rateLimited.injEq] at h
    exact h.2 ▸ hf
  | true =>
    rw [burstStage_allow s ip isApi now ha] at h
    exact sustainedStage_rateLimited_future _ ip isApi now t resetAt h

theorem runPipeline_rateLimited_future (s : SysState) (ip : String) (isApi : Bool)
    (now : Nat) (t : Tier) (resetAt : Nat)
    (h : (runPipeline s ip isApi now).2 = Verdict.rateLimited t resetAt) :
    now < resetAt := by
  cases hban : (isBanned s.bans ip now).1 with
  | true => simp [runPipeline, hban] at h
  | false =>
    simp only [runPipeline, hban, Bool.false_eq_true, if_false] at h
    exact burstStage_rateLimited_future _ ip isApi now t resetAt h

/-- C7: on a programmatic route, every rate-limited rejection produces the 429
JSON payload whose `retryAfter` equals the rejecting tier's `resetAt` minus
the current time in whole seconds, floored at zero; in particular it is
nonnegative.  The clamp never binds, because a rejecting tier's `resetAt`
always lies strictly in the future. -/
theorem C7_retryAfter_floored (s : SysState) (ip : String) (now : Nat) (t : Tier)
    (resetAt : Nat)
    (h : (runPipeline s ip true now).2 = Verdict.rateLimited t resetAt) :
    (processRequest s ip true now).2 =
      Response.tooManyJson (max 0 (((resetAt : Int) - (now : Int)).fdiv 1000))
        (((now : Int)).fdiv 1000 + ((resetAt : Int) - (now : Int)).fdiv 1000) ∧
    0 ≤ ((resetAt : Int) - (now : Int)).fdiv 1000 := by
  have hf := runPipeline_rateLimited_future s ip true now t resetAt h
  have hnn : 0 ≤ ((resetAt : Int) - (now : Int)).fdiv 1000 := by
    have h1 : (0 : Int) ≤ (resetAt : Int) - (now : Int) := by omega
    exact Int.fdiv_nonneg h1 (by norm_num)
  refine ⟨?_, hnn⟩
  simp only [processRequest, h, dispatch, if_true]
  rw [max_eq_right hnn]

theorem C7_retryAfter_floored_witness :
    (processRequest c7State "a" true 0).2 = Response.tooManyJson 1 1 := by
  rw [(C7_retryAfter_floored c7State "a" 0 Tier.burst 1000 (by decide)).1]
  decide

theorem processRequest_of_activeBan (s : SysState) (ip : String) (isApi : Bool)
    (now : Nat) (ban : BanRecord) (hb : s.bans.ipBans ip = some ban)
    (hnow : now ≤ ban.bannedUntil) :
    processRequest s ip isApi now = (s, Response.forbiddenStatic) := by
  have h1 : isBanned s.bans ip now = (true, s.bans) := by
    have hx : ¬ ban.bannedUntil < now := by omega
    simp [isBanned, hb, hx]
  simp [processRequest, runPipeline, h1, dispatch]

/-- C2: a request from an identity with an active ban (current time not past
`bannedUntil`) is answered with the fixed forbidden response immediately: the
whole system state is returned unchanged, so no limiter tier is evaluated or
consumed and no violation is recorded — for any route classification, any
instant up to the expiry, and any limiter window state whatsoever (in
particular after the windows that caused the ban have reset). -/
theorem C2_active_ban_short_circuits (s : SysState) (ip : String) (isApi : Bool)
    (now : Nat) (ban : BanRecord) (hb : s.bans.ipBans ip = some ban)
    (hnow : now ≤ ban.bannedUntil) :
    processRequest s ip isApi now = (s, Response.forbiddenStatic) :=
  processRequest_of_activeBan s ip isApi now ban hb hnow

theorem C2_active_ban_short_circuits_witness :
    processRequest c2State "a" true 500 = (c2State, Response.forbiddenStatic) :=
  C2_active_ban_short_circuits c2State "a" true 500
    { bannedUntil := 1000, violations := 1 } (by decide) (by decide)

/-- C6 counterexample: with the burst window for "a" full, a non-banned
request at t = 0 is rejected by the burst tier and the sustained tier is
never evaluated nor consumed — afterwards the sustained window map still has
no entry for "a".  This refutes the claim that both global tiers are always
evaluated and consume their counts on every request that is not
ban-short-circuited. -/
theorem C6_sustained_skipped_on_burst_reject :
    (runPipeline c6State "a" false 0).2 = Verdict.rateLimited Tier.burst 1000 ∧
    (runPipeline c6State "a" false 0).1.sustainedWindows "a" = none := by
  decide

/-- C6 amended: for a request not short-circuited by a ban, the tiers are
evaluated in the fixed order burst, sustained, then api (when applicable), and
evaluation short-circuits at the first rejecting tier — including between the
two global tiers: a burst-rejected request leaves the sustained and api
window maps untouched, and a sustained-rejected request leaves the api window
map untouched. -/
theorem C6_first_reject_short_circuits (s : SysState) (ip : String) (isApi : Bool)
    (now : Nat) (hb : s.bans.ipBans ip = none) :
    ((checkAndConsume burstTier (s.burstWindows ip) now).allowed = false →
      (runPipeline s ip isApi now).1.sustainedWindows = s.sustainedWindows ∧
      (runPipeline s ip isApi now).1.apiWindows = s.apiWindows ∧
      (runPipeline s ip isApi now).2 =
        Verdict.rateLimited Tier.burst
          (checkAndConsume burstTier (s.burstWindows ip) now).resetAt) ∧
    ((checkAndConsume burstTier (s.burstWindows ip) now).allowed = true →
     (checkAndConsume sustainedTier (s.sustainedWindows ip) now).allowed = false →
      (runPipeline s ip isApi now).1.apiWindows = s.apiWindows ∧
      (runPipeline s ip isApi now).2 =
        Verdict.rateLimited Tier.sustained
          (checkAndConsume sustainedTier (s.sustainedWindows ip) now).resetAt) := by
  rw [runPipeline_no_ban s ip isApi now hb]
  constructor
  · intro h1
    rw [burstStage_reject s ip isApi now h1]
    exact ⟨rfl, rfl, rfl⟩
  · intro h1 h2
    rw [burstStage_allow s ip isApi now h1]
    rw [sustainedStage_reject
      { s with burstWindows := (setMap s.burstWindows ip
          (some (checkAndConsume burstTier (s.burstWindows ip) now).window)) }
      ip isApi now h2]
    exact ⟨rfl, rfl⟩

theorem C6_first_reject_short_circuits_witness :
    (runPipeline c6State "a" false 0).1.sustainedWindows = c6State.sustainedWindows ∧
    (runPipeline c6State "a" false 0).1.apiWindows = c6State.apiWindows := by
  have h := (C6_first_reject_short_circuits c6State "a" false 0 (by decide)).1 (by decide)
  exact ⟨h.1, h.2.1⟩

/-- C8: the rejection response shape is determined by the verdict and the
route classification: an active ban always produces the fixed 403 static
response for any route classification, and a rate-limited rejection on a
non-programmatic route always produces the redirect to the rate-limit notice
resource carrying the absolute reset time in unix seconds as its query
value. -/
theorem C8_rejection_response_shapes (s : SysState) (ip : String) (now : Nat) :
    (∀ ban, s.bans.ipBans ip = some ban → now ≤ ban.bannedUntil →
      ∀ isApi, (processRequest s ip isApi now).2 = Response.forbiddenStatic) ∧
    (∀ t resetAt, (runPipeline s ip false now).2 = Verdict.rateLimited t resetAt →
      (processRequest s ip false now).2 =
        Response.redirectRateLimit
          (((now : Int)).fdiv 1000 + ((resetAt : Int) - (now : Int)).fdiv 1000)) := by
  constructor
  · intro ban hb hnow isApi
    rw [processRequest_of_activeBan s ip isApi now ban hb hnow]
  · intro t resetAt h
    simp only [processRequest, h, dispatch, Bool.false_eq_true, if_false]

theorem C8_rejection_response_shapes_witness :
    (processRequest c2State "a" false 500).2 = Response.forbiddenStatic ∧
    (processRequest c6State "a" false 0).2 = Response.redirectRateLimit 1 := by
  constructor
  · exact (C8_rejection_response_shapes c2State "a" 500).1
      { bannedUntil := 1000, violations := 1 } (by decide) (by decide) false
  · rw [(C8_rejection_response_shapes c6State "a" 0).2 Tier.burst 1000 (by decide)]
    decide

/-- C1: the escalation counter does not survive ban expiry.  Identity "a" had
a first ban with violations = 1 that expired at t = 900000; on the next
request the ban-check middleware's `isBanned` lazily deletes the record, so
when five further rate-limit violations make `recordViolation` ban "a" again,
`ipBans.get(ip)` is `undefined` and the new record's `violations` field is 1 —
not 2 as the claim states.  Every ban created through the request pipeline
carries `violations = 1`, because `recordViolation` only runs on requests
that already passed the ban check. -/
theorem C1_second_ban_keeps_count_one :
    c1After.bans.ipBans "a" =
      some { bannedUntil := 1800001, violations := 1 } := by
  decide
